import Mathlib

/-!
Verification of the college-metrics data-shaping core (`src/app.py`,
`src/data_loader.py`).

The Python values flowing through `get_school_metrics` are JSON-like:
`None`, numbers, strings and string-keyed dicts.  They are embedded as
`PyVal`.  Python's `dict.get(key, default)` is total on dicts but raises
`AttributeError` on every other receiver, so lookups live in
`Except String`.  The two formatter functions and the derived
total-enrollment computation of `main` are embedded likewise.
-/

/-- A Python/JSON value as consumed by the dashboard: `None`, a number
(ints and floats are merged into `ℚ`), a string, or a string-keyed dict
whose entry list keeps insertion order. -/
inductive PyVal where
  | none : PyVal
  | num (q : ℚ) : PyVal
  | str (s : String) : PyVal
  | dict (entries : List (String × PyVal)) : PyVal

/-- First-match lookup in a dict's entry list (Python dict lookup; keys of a
Python dict are unique, so first match is the match). -/
def lookupKey (k : String) : List (String × PyVal) → Option PyVal
  | [] => Option.none
  | (k', v) :: rest => if k = k' then some v else lookupKey k rest

/-- Python's `x.get(key, default)`: total on dicts, `AttributeError` on any
other receiver (this is what makes chained `.get` calls fallible). -/
def PyVal.get : PyVal → String → PyVal → Except String PyVal
  | .dict es, k, d => .ok ((lookupKey k es).getD d)
  | _, _, _ => .error "AttributeError: object has no attribute get"

/-- Python's `x[key]` on the metrics report: `KeyError` when absent,
`TypeError` on a non-dict. -/
def pyIndex : PyVal → String → Except String PyVal
  | .dict es, k =>
    match lookupKey k es with
    | some v => .ok v
    | Option.none => .error "KeyError"
  | _, _ => .error "TypeError: value is not subscriptable"

/-- Python truthiness of a `PyVal` (used by the `Website` conditional). -/
def pyTruthy : PyVal → Bool
  | .none => false
  | .num q => if q = 0 then false else true
  | .str s => if s = "" then false else true
  | .dict [] => false
  | .dict (_ :: _) => true

/-- Python `value == n` against a numeric literal: numbers compare by value,
every other shape (including `None`) compares unequal. -/
def pyEqNum (v : PyVal) (n : ℚ) : Bool :=
  match v with
  | .num q => decide (q = n)
  | _ => false

/-- Left-pad the decimal digits of `n` with zeros to width `k`. -/
def padZeros (k : Nat) (n : Nat) : String :=
  let s := toString n
  String.mk (List.replicate (k - s.length) '0') ++ s

/-- Insert a comma after every block of three characters of a reversed digit
list (helper for the thousands grouping of Python's `,` format flag). -/
def groupRev : List Char → List Char
  | a :: b :: c :: d :: rest => a :: b :: c :: ',' :: groupRev (d :: rest)
  | l => l

/-- Thousands grouping of a decimal digit string, as Python's `,` flag
renders it (`"12345"` becomes `"12,345"`). -/
def commaGroup (s : String) : String :=
  String.mk (groupRev s.toList.reverse).reverse

/-- Round the fraction `n / d` (with `d > 0`) to the nearest integer, ties
to even — the rounding Python's fixed point `f` format applies.  Stated on
numerator and denominator so that it evaluates by pure integer
arithmetic. -/
def roundHalfEvenND (n d : ℤ) : ℤ :=
  let f := Int.ediv n d
  let t := 2 * (n - f * d)
  if t < d then f
  else if d < t then f + 1
  else if f % 2 = 0 then f else f + 1

/-- Python's `f"{x:,.2f}"`: sign, thousands-grouped integer part, and exactly
two fractional digits (`|q| * 100` is the fraction `natAbs num * 100 / den`). -/
def formatFloat2Comma (q : ℚ) : String :=
  let m := (roundHalfEvenND ((q.num.natAbs : ℤ) * 100) (q.den : ℤ)).toNat
  (if q.num < 0 then "-" else "") ++
    commaGroup (toString (m / 100)) ++ "." ++ padZeros 2 (m % 100)

/-- Python's `f"{x:.1f}"`: sign, ungrouped integer part, one fractional
digit. -/
def formatFloat1 (q : ℚ) : String :=
  let m := (roundHalfEvenND ((q.num.natAbs : ℤ) * 10) (q.den : ℤ)).toNat
  (if q.num < 0 then "-" else "") ++ toString (m / 10) ++ "." ++ toString (m % 10)

/-- Python `str()` of a scalar, as interpolated by the f-strings of
`get_school_metrics`: `None` prints as `"None"`, integers without a point,
exact decimals with one.  The aggregator only ever interpolates scalars, so
the dict branch is rendered schematically. -/
def numRepr (q : ℚ) : String :=
  if q.den = 1 then toString q.num
  else
    match (List.range 40).find? (fun k => 10 ^ k % q.den = 0) with
    | some k =>
      let m := q.num.natAbs * 10 ^ k / q.den
      (if q.num < 0 then "-" else "") ++ toString (m / 10 ^ k) ++ "." ++ padZeros k (m % 10 ^ k)
    | Option.none => toString q.num ++ "/" ++ toString q.den

def pyStr : PyVal → String
  | .none => "None"
  | .num q => numRepr q
  | .str s => s
  | .dict _ => "{...}"

/-- `format_currency` (src/app.py lines 7-10): `None` and exactly `0` give
`"N/A"`, numbers render as `f"${amount:,.2f}"`; a non-numeric, non-`None`
argument makes the format expression raise. -/
def format_currency : PyVal → Except String String
  | .none => .ok "N/A"
  | .num q => .ok (if q = 0 then "N/A" else "$" ++ formatFloat2Comma q)
  | .str _ => .error "ValueError: unknown format code f"
  | .dict _ => .error "TypeError: unsupported format string"

/-- `format_percentage` (src/app.py lines 12-15): `None` gives `"N/A"`,
numbers render as `f"{decimal * 100:.1f}%"`; other shapes raise in the
multiplication or the format expression. -/
def format_percentage : PyVal → Except String String
  | .none => .ok "N/A"
  | .num q => .ok (formatFloat1 (mkRat (q.num * 100) q.den) ++ "%")
  | .str _ => .error "ValueError: unknown format code f"
  | .dict _ => .error "TypeError: unsupported operand"

/-- Auxiliary decimal accumulator for `parseIntLit`. -/
def parseDigitsAux : List Char → Nat → Option Nat
  | [], acc => some acc
  | c :: cs, acc =>
    if '0' ≤ c ∧ c ≤ '9' then parseDigitsAux cs (10 * acc + (c.toNat - '0'.toNat))
    else Option.none

/-- A non-empty run of decimal digits, as a number. -/
def parseDigits : List Char → Option Nat
  | [] => Option.none
  | cs => parseDigitsAux cs 0

/-- Python's `int(s)` on a string: an optional sign followed by digits
(surrounding whitespace, which never occurs in this data, is not modelled);
anything else — in particular the `"N/A"` sentinel — is rejected. -/
def parseIntLit (s : String) : Option Int :=
  match s.toList with
  | '-' :: cs => (parseDigits cs).map (fun n => -(n : Int))
  | '+' :: cs => (parseDigits cs).map (fun n => (n : Int))
  | cs => (parseDigits cs).map (fun n => (n : Int))

/-- Python's `int()` coercion as applied in `main` (src/app.py lines
173-176): numbers truncate toward zero, decimal strings parse, everything
else raises. -/
def pyInt : PyVal → Except String Int
  | .num q => .ok (if 0 ≤ q then q.floor else -((-q).floor))
  | .str s =>
    match parseIntLit s with
    | some n => .ok n
    | Option.none => .error "ValueError: invalid literal for int"
  | .none => .error "TypeError: int of NoneType"
  | .dict _ => .error "TypeError: int of dict"

/-!
## The input class of claim-relevant records

`RawSchoolRecord` inputs are nested string-keyed mappings in which any
subset of keys, at any depth, may be missing.  That class is captured by a
family of structures whose fields are all `Option`s (`none` = the key is
absent from the dict), mirroring exactly the paths `get_school_metrics`
reads, and an encoding `toPy` into `PyVal` dicts that omits absent keys.
-/

structure EnrollmentSec where
  undergrad_12_month : Option ℚ
  grad_12_month : Option ℚ

structure DemographicsSec where
  student_faculty : Option ℚ
  men : Option ℚ
  women : Option ℚ
  age_entry : Option ℚ
  median_family_income : Option ℚ

structure RetOverallSec where
  full_time : Option ℚ
  part_time : Option ℚ

structure RetentionSec where
  overall : Option RetOverallSec

structure StudentSec where
  enrollment : Option EnrollmentSec
  demographics : Option DemographicsSec
  part_time_share : Option ℚ
  share_firstgeneration : Option ℚ
  share_25_older : Option ℚ
  students_with_pell_grant : Option ℚ
  retention_rate : Option RetentionSec

structure TuitionSec where
  in_state : Option ℚ
  out_of_state : Option ℚ

structure RoomboardSec where
  oncampus : Option ℚ

structure AvgNetPriceSec where
  overall : Option ℚ

structure ByIncomeSec where
  low_income : Option ℚ
  high_income : Option ℚ

structure NetPricePubSec where
  by_income_level : Option ByIncomeSec

structure NetPriceSec where
  pub : Option NetPricePubSec

structure CostSec where
  tuition : Option TuitionSec
  roomboard : Option RoomboardSec
  booksupply : Option ℚ
  avg_net_price : Option AvgNetPriceSec
  net_price : Option NetPriceSec

structure TransferFourSec where
  full_time : Option ℚ

structure TransferRateSec where
  four_yr : Option TransferFourSec

structure CompletionSec where
  completion_rate_4yr_150nt : Option ℚ
  transfer_rate : Option TransferRateSec

structure EarningsYearSec where
  median : Option ℚ
  median_earnings : Option ℚ
  percent_greater_than_25000 : Option ℚ

structure EarningsSec where
  six_yrs : Option EarningsYearSec
  eight_yrs : Option EarningsYearSec
  ten_yrs : Option EarningsYearSec

structure CompletersSec where
  overall : Option ℚ

structure MedianDebtSec where
  completers : Option CompletersSec

structure AidSec where
  federal_loan_rate : Option ℚ
  median_debt : Option MedianDebtSec

structure RateSupSec where
  overall : Option ℚ

structure RepayYearSec where
  rate_suppressed : Option RateSupSec

structure RepaymentSec where
  one_yr : Option RepayYearSec
  three_yr : Option RepayYearSec

structure LatestSec where
  student : Option StudentSec
  cost : Option CostSec
  completion : Option CompletionSec
  earnings : Option EarningsSec
  aid : Option AidSec
  repayment : Option RepaymentSec

structure SchoolSec where
  name : Option String
  city : Option String
  state : Option String
  address : Option String
  school_url : Option String
  ownership : Option ℚ
  carnegie_basic : Option ℚ
  accreditor : Option String
  religious_affiliation : Option ℚ
  ft_faculty_rate : Option ℚ
  faculty_salary : Option ℚ

structure SchoolRecord where
  latest : Option LatestSec
  school : Option SchoolSec

/-- Drop the entries whose value is absent: the dict a record with those
keys missing materializes to. -/
def optEntries : List (String × Option PyVal) → List (String × PyVal)
  | [] => []
  | (_, Option.none) :: rest => optEntries rest
  | (k, some v) :: rest => (k, v) :: optEntries rest

def mkDict (l : List (String × Option PyVal)) : PyVal :=
  .dict (optEntries l)

/-- Lookup in the un-filtered entry list: the value of `lookupKey` on
`optEntries l` whenever the keys of `l` are distinct. -/
def olookup (k : String) : List (String × Option PyVal) → Option PyVal
  | [] => Option.none
  | (k', v) :: rest => if k = k' then v else olookup k rest

/-! Entry lists: one `(key, optional value)` pair per field the source code
can look up, with the exact dict keys of the College Scorecard payload. -/

def EnrollmentSec.entries (e : EnrollmentSec) : List (String × Option PyVal) :=
  [("undergrad_12_month", e.undergrad_12_month.map .num),
   ("grad_12_month", e.grad_12_month.map .num)]

def EnrollmentSec.toPy (e : EnrollmentSec) : PyVal := mkDict e.entries

def DemographicsSec.entries (d : DemographicsSec) : List (String × Option PyVal) :=
  [("student_faculty_ratio", d.student_faculty.map .num),
   ("men", d.men.map .num),
   ("women", d.women.map .num),
   ("age_entry", d.age_entry.map .num),
   ("median_family_income", d.median_family_income.map .num)]

def DemographicsSec.toPy (d : DemographicsSec) : PyVal := mkDict d.entries

def RetOverallSec.entries (r : RetOverallSec) : List (String × Option PyVal) :=
  [("full_time", r.full_time.map .num),
   ("part_time", r.part_time.map .num)]

def RetOverallSec.toPy (r : RetOverallSec) : PyVal := mkDict r.entries

def RetentionSec.entries (r : RetentionSec) : List (String × Option PyVal) :=
  [("overall", r.overall.map RetOverallSec.toPy)]

def RetentionSec.toPy (r : RetentionSec) : PyVal := mkDict r.entries

def StudentSec.entries (s : StudentSec) : List (String × Option PyVal) :=
  [("enrollment", s.enrollment.map EnrollmentSec.toPy),
   ("demographics", s.demographics.map DemographicsSec.toPy),
   ("part_time_share", s.part_time_share.map .num),
   ("share_firstgeneration", s.share_firstgeneration.map .num),
   ("share_25_older", s.share_25_older.map .num),
   ("students_with_pell_grant", s.students_with_pell_grant.map .num),
   ("retention_rate", s.retention_rate.map RetentionSec.toPy)]

def StudentSec.toPy (s : StudentSec) : PyVal := mkDict s.entries

def TuitionSec.entries (t : TuitionSec) : List (String × Option PyVal) :=
  [("in_state", t.in_state.map .num),
   ("out_of_state", t.out_of_state.map .num)]

def TuitionSec.toPy (t : TuitionSec) : PyVal := mkDict t.entries

def RoomboardSec.entries (r : RoomboardSec) : List (String × Option PyVal) :=
  [("oncampus", r.oncampus.map .num)]

def RoomboardSec.toPy (r : RoomboardSec) : PyVal := mkDict r.entries

def AvgNetPriceSec.entries (a : AvgNetPriceSec) : List (String × Option PyVal) :=
  [("overall", a.overall.map .num)]

def AvgNetPriceSec.toPy (a : AvgNetPriceSec) : PyVal := mkDict a.entries

def ByIncomeSec.entries (b : ByIncomeSec) : List (String × Option PyVal) :=
  [("0-30000", b.low_income.map .num),
   ("75000-plus", b.high_income.map .num)]

def ByIncomeSec.toPy (b : ByIncomeSec) : PyVal := mkDict b.entries

def NetPricePubSec.entries (n : NetPricePubSec) : List (String × Option PyVal) :=
  [("by_income_level", n.by_income_level.map ByIncomeSec.toPy)]

def NetPricePubSec.toPy (n : NetPricePubSec) : PyVal := mkDict n.entries

def NetPriceSec.entries (n : NetPriceSec) : List (String × Option PyVal) :=
  [("public", n.pub.map NetPricePubSec.toPy)]

def NetPriceSec.toPy (n : NetPriceSec) : PyVal := mkDict n.entries

def CostSec.entries (c : CostSec) : List (String × Option PyVal) :=
  [("tuition", c.tuition.map TuitionSec.toPy),
   ("roomboard", c.roomboard.map RoomboardSec.toPy),
   ("booksupply", c.booksupply.map .num),
   ("avg_net_price", c.avg_net_price.map AvgNetPriceSec.toPy),
   ("net_price", c.net_price.map NetPriceSec.toPy)]

def CostSec.toPy (c : CostSec) : PyVal := mkDict c.entries

def TransferFourSec.entries (t : TransferFourSec) : List (String × Option PyVal) :=
  [("full_time", t.full_time.map .num)]

def TransferFourSec.toPy (t : TransferFourSec) : PyVal := mkDict t.entries

def TransferRateSec.entries (t : TransferRateSec) : List (String × Option PyVal) :=
  [("4yr", t.four_yr.map TransferFourSec.toPy)]

def TransferRateSec.toPy (t : TransferRateSec) : PyVal := mkDict t.entries

def CompletionSec.entries (c : CompletionSec) : List (String × Option PyVal) :=
  [("completion_rate_4yr_150nt", c.completion_rate_4yr_150nt.map .num),
   ("transfer_rate", c.transfer_rate.map TransferRateSec.toPy)]

def CompletionSec.toPy (c : CompletionSec) : PyVal := mkDict c.entries

def EarningsYearSec.entries (e : EarningsYearSec) : List (String × Option PyVal) :=
  [("median", e.median.map .num),
   ("median_earnings", e.median_earnings.map .num),
   ("percent_greater_than_25000", e.percent_greater_than_25000.map .num)]

def EarningsYearSec.toPy (e : EarningsYearSec) : PyVal := mkDict e.entries

def EarningsSec.entries (e : EarningsSec) : List (String × Option PyVal) :=
  [("6_yrs_after_entry", e.six_yrs.map EarningsYearSec.toPy),
   ("8_yrs_after_entry", e.eight_yrs.map EarningsYearSec.toPy),
   ("10_yrs_after_entry", e.ten_yrs.map EarningsYearSec.toPy)]

def EarningsSec.toPy (e : EarningsSec) : PyVal := mkDict e.entries

def CompletersSec.entries (c : CompletersSec) : List (String × Option PyVal) :=
  [("overall", c.overall.map .num)]

def CompletersSec.toPy (c : CompletersSec) : PyVal := mkDict c.entries

def MedianDebtSec.entries (m : MedianDebtSec) : List (String × Option PyVal) :=
  [("completers", m.completers.map CompletersSec.toPy)]

def MedianDebtSec.toPy (m : MedianDebtSec) : PyVal := mkDict m.entries

def AidSec.entries (a : AidSec) : List (String × Option PyVal) :=
  [("federal_loan_rate", a.federal_loan_rate.map .num),
   ("median_debt", a.median_debt.map MedianDebtSec.toPy)]

def AidSec.toPy (a : AidSec) : PyVal := mkDict a.entries

def RateSupSec.entries (r : RateSupSec) : List (String × Option PyVal) :=
  [("overall", r.overall.map .num)]

def RateSupSec.toPy (r : RateSupSec) : PyVal := mkDict r.entries

def RepayYearSec.entries (r : RepayYearSec) : List (String × Option PyVal) :=
  [("rate_suppressed", r.rate_suppressed.map RateSupSec.toPy)]

def RepayYearSec.toPy (r : RepayYearSec) : PyVal := mkDict r.entries

def RepaymentSec.entries (r : RepaymentSec) : List (String × Option PyVal) :=
  [("1_yr", r.one_yr.map RepayYearSec.toPy),
   ("3_yr", r.three_yr.map RepayYearSec.toPy)]

def RepaymentSec.toPy (r : RepaymentSec) : PyVal := mkDict r.entries

def LatestSec.entries (l : LatestSec) : List (String × Option PyVal) :=
  [("student", l.student.map StudentSec.toPy),
   ("cost", l.cost.map CostSec.toPy),
   ("completion", l.completion.map CompletionSec.toPy),
   ("earnings", l.earnings.map EarningsSec.toPy),
   ("aid", l.aid.map AidSec.toPy),
   ("repayment", l.repayment.map RepaymentSec.toPy)]

def LatestSec.toPy (l : LatestSec) : PyVal := mkDict l.entries

def SchoolSec.entries (s : SchoolSec) : List (String × Option PyVal) :=
  [("name", s.name.map .str),
   ("city", s.city.map .str),
   ("state", s.state.map .str),
   ("address", s.address.map .str),
   ("school_url", s.school_url.map .str),
   ("ownership", s.ownership.map .num),
   ("carnegie_basic", s.carnegie_basic.map .num),
   ("accreditor", s.accreditor.map .str),
   ("religious_affiliation", s.religious_affiliation.map .num),
   ("ft_faculty_rate", s.ft_faculty_rate.map .num),
   ("faculty_salary", s.faculty_salary.map .num)]

def SchoolSec.toPy (s : SchoolSec) : PyVal := mkDict s.entries

def SchoolRecord.entries (r : SchoolRecord) : List (String × Option PyVal) :=
  [("latest", r.latest.map LatestSec.toPy),
   ("school", r.school.map SchoolSec.toPy)]

def SchoolRecord.toPy (r : SchoolRecord) : PyVal := mkDict r.entries

theorem lookupKey_optEntries_of_not_mem (k : String) :
    ∀ l : List (String × Option PyVal), k ∉ l.map Prod.fst →
      lookupKey k (optEntries l) = Option.none := by
  intro l
  induction l with
  | nil => intro _; rfl
  | cons p rest ih =>
    obtain ⟨k', v⟩ := p
    intro h
    simp only [List.map_cons, List.mem_cons, not_or] at h
    cases v with
    | none => exact ih h.2
    | some x =>
      simp only [optEntries, lookupKey, if_neg h.1]
      exact ih h.2

theorem lookupKey_optEntries (k : String) :
    ∀ l : List (String × Option PyVal), (l.map Prod.fst).Nodup →
      lookupKey k (optEntries l) = olookup k l := by
  intro l
  induction l with
  | nil => intro _; rfl
  | cons p rest ih =>
    obtain ⟨k', v⟩ := p
    intro h
    simp only [List.map_cons, List.nodup_cons] at h
    cases v with
    | none =>
      simp only [optEntries, olookup]
      by_cases hk : k = k'
      · subst hk
        rw [if_pos rfl]
        exact lookupKey_optEntries_of_not_mem k rest h.1
      · rw [if_neg hk]
        exact ih h.2
    | some x =>
      simp only [optEntries, olookup, lookupKey]
      by_cases hk : k = k'
      · rw [if_pos hk, if_pos hk]
      · rw [if_neg hk, if_neg hk]
        exact ih h.2

theorem get_mkDict (l : List (String × Option PyVal))
    (h : (l.map Prod.fst).Nodup) (k : String) (d : PyVal) :
    (mkDict l).get k d = .ok ((olookup k l).getD d) := by
  simp only [mkDict, PyVal.get, lookupKey_optEntries k l h]


/-! `.get` on each encoded (sub)dict, uniformly: an absent subtree makes the
`{}` default the receiver, so the lookup result is the `olookup` of the
bound option.  One lemma per structure. -/

theorem get_toPy_EnrollmentSec (o : Option EnrollmentSec) (k : String) (d : PyVal) :
    ((o.map EnrollmentSec.toPy).getD (.dict [])).get k d
      = .ok ((o.bind fun x => olookup k x.entries).getD d) := by
  cases o with
  | none => rfl
  | some x => exact get_mkDict x.entries (by simp [EnrollmentSec.entries]) k d

theorem get_toPy_DemographicsSec (o : Option DemographicsSec) (k : String) (d : PyVal) :
    ((o.map DemographicsSec.toPy).getD (.dict [])).get k d
      = .ok ((o.bind fun x => olookup k x.entries).getD d) := by
  cases o with
  | none => rfl
  | some x => exact get_mkDict x.entries (by simp [DemographicsSec.entries]) k d

theorem get_toPy_RetOverallSec (o : Option RetOverallSec) (k : String) (d : PyVal) :
    ((o.map RetOverallSec.toPy).getD (.dict [])).get k d
      = .ok ((o.bind fun x => olookup k x.entries).getD d) := by
  cases o with
  | none => rfl
  | some x => exact get_mkDict x.entries (by simp [RetOverallSec.entries]) k d

theorem get_toPy_RetentionSec (o : Option RetentionSec) (k : String) (d : PyVal) :
    ((o.map RetentionSec.toPy).getD (.dict [])).get k d
      = .ok ((o.bind fun x => olookup k x.entries).getD d) := by
  cases o with
  | none => rfl
  | some x => exact get_mkDict x.entries (by simp [RetentionSec.entries]) k d

theorem get_toPy_StudentSec (o : Option StudentSec) (k : String) (d : PyVal) :
    ((o.map StudentSec.toPy).getD (.dict [])).get k d
      = .ok ((o.bind fun x => olookup k x.entries).getD d) := by
  cases o with
  | none => rfl
  | some x => exact get_mkDict x.entries (by simp [StudentSec.entries]) k d

theorem get_toPy_TuitionSec (o : Option TuitionSec) (k : String) (d : PyVal) :
    ((o.map TuitionSec.toPy).getD (.dict [])).get k d
      = .ok ((o.bind fun x => olookup k x.entries).getD d) := by
  cases o with
  | none => rfl
  | some x => exact get_mkDict x.entries (by simp [TuitionSec.entries]) k d

theorem get_toPy_RoomboardSec (o : Option RoomboardSec) (k : String) (d : PyVal) :
    ((o.map RoomboardSec.toPy).getD (.dict [])).get k d
      = .ok ((o.bind fun x => olookup k x.entries).getD d) := by
  cases o with
  | none => rfl
  | some x => exact get_mkDict x.entries (by simp [RoomboardSec.entries]) k d

theorem get_toPy_AvgNetPriceSec (o : Option AvgNetPriceSec) (k : String) (d : PyVal) :
    ((o.map AvgNetPriceSec.toPy).getD (.dict [])).get k d
      = .ok ((o.bind fun x => olookup k x.entries).getD d) := by
  cases o with
  | none => rfl
  | some x => exact get_mkDict x.entries (by simp [AvgNetPriceSec.entries]) k d

theorem get_toPy_ByIncomeSec (o : Option ByIncomeSec) (k : String) (d : PyVal) :
    ((o.map ByIncomeSec.toPy).getD (.dict [])).get k d
      = .ok ((o.bind fun x => olookup k x.entries).getD d) := by
  cases o with
  | none => rfl
  | some x => exact get_mkDict x.entries (by simp [ByIncomeSec.entries]) k d

theorem get_toPy_NetPricePubSec (o : Option NetPricePubSec) (k : String) (d : PyVal) :
    ((o.map NetPricePubSec.toPy).getD (.dict [])).get k d
      = .ok ((o.bind fun x => olookup k x.entries).getD d) := by
  cases o with
  | none => rfl
  | some x => exact get_mkDict x.entries (by simp [NetPricePubSec.entries]) k d

theorem get_toPy_NetPriceSec (o : Option NetPriceSec) (k : String) (d : PyVal) :
    ((o.map NetPriceSec.toPy).getD (.dict [])).get k d
      = .ok ((o.bind fun x => olookup k x.entries).getD d) := by
  cases o with
  | none => rfl
  | some x => exact get_mkDict x.entries (by simp [NetPriceSec.entries]) k d

theorem get_toPy_CostSec (o : Option CostSec) (k : String) (d : PyVal) :
    ((o.map CostSec.toPy).getD (.dict [])).get k d
      = .ok ((o.bind fun x => olookup k x.entries).getD d) := by
  cases o with
  | none => rfl
  | some x => exact get_mkDict x.entries (by simp [CostSec.entries]) k d

theorem get_toPy_TransferFourSec (o : Option TransferFourSec) (k : String) (d : PyVal) :
    ((o.map TransferFourSec.toPy).getD (.dict [])).get k d
      = .ok ((o.bind fun x => olookup k x.entries).getD d) := by
  cases o with
  | none => rfl
  | some x => exact get_mkDict x.entries (by simp [TransferFourSec.entries]) k d

theorem get_toPy_TransferRateSec (o : Option TransferRateSec) (k : String) (d : PyVal) :
    ((o.map TransferRateSec.toPy).getD (.dict [])).get k d
      = .ok ((o.bind fun x => olookup k x.entries).getD d) := by
  cases o with
  | none => rfl
  | some x => exact get_mkDict x.entries (by simp [TransferRateSec.entries]) k d

theorem get_toPy_CompletionSec (o : Option CompletionSec) (k : String) (d : PyVal) :
    ((o.map CompletionSec.toPy).getD (.dict [])).get k d
      = .ok ((o.bind fun x => olookup k x.entries).getD d) := by
  cases o with
  | none => rfl
  | some x => exact get_mkDict x.entries (by simp [CompletionSec.entries]) k d

theorem get_toPy_EarningsYearSec (o : Option EarningsYearSec) (k : String) (d : PyVal) :
    ((o.map EarningsYearSec.toPy).getD (.dict [])).get k d
      = .ok ((o.bind fun x => olookup k x.entries).getD d) := by
  cases o with
  | none => rfl
  | some x => exact get_mkDict x.entries (by simp [EarningsYearSec.entries]) k d

theorem get_toPy_EarningsSec (o : Option EarningsSec) (k : String) (d : PyVal) :
    ((o.map EarningsSec.toPy).getD (.dict [])).get k d
      = .ok ((o.bind fun x => olookup k x.entries).getD d) := by
  cases o with
  | none => rfl
  | some x => exact get_mkDict x.entries (by simp [EarningsSec.entries]) k d

theorem get_toPy_CompletersSec (o : Option CompletersSec) (k : String) (d : PyVal) :
    ((o.map CompletersSec.toPy).getD (.dict [])).get k d
      = .ok ((o.bind fun x => olookup k x.entries).getD d) := by
  cases o with
  | none => rfl
  | some x => exact get_mkDict x.entries (by simp [CompletersSec.entries]) k d

theorem get_toPy_MedianDebtSec (o : Option MedianDebtSec) (k : String) (d : PyVal) :
    ((o.map MedianDebtSec.toPy).getD (.dict [])).get k d
      = .ok ((o.bind fun x => olookup k x.entries).getD d) := by
  cases o with
  | none => rfl
  | some x => exact get_mkDict x.entries (by simp [MedianDebtSec.entries]) k d

theorem get_toPy_AidSec (o : Option AidSec) (k : String) (d : PyVal) :
    ((o.map AidSec.toPy).getD (.dict [])).get k d
      = .ok ((o.bind fun x => olookup k x.entries).getD d) := by
  cases o with
  | none => rfl
  | some x => exact get_mkDict x.entries (by simp [AidSec.entries]) k d

theorem get_toPy_RateSupSec (o : Option RateSupSec) (k : String) (d : PyVal) :
    ((o.map RateSupSec.toPy).getD (.dict [])).get k d
      = .ok ((o.bind fun x => olookup k x.entries).getD d) := by
  cases o with
  | none => rfl
  | some x => exact get_mkDict x.entries (by simp [RateSupSec.entries]) k d

theorem get_toPy_RepayYearSec (o : Option RepayYearSec) (k : String) (d : PyVal) :
    ((o.map RepayYearSec.toPy).getD (.dict [])).get k d
      = .ok ((o.bind fun x => olookup k x.entries).getD d) := by
  cases o with
  | none => rfl
  | some x => exact get_mkDict x.entries (by simp [RepayYearSec.entries]) k d

theorem get_toPy_RepaymentSec (o : Option RepaymentSec) (k : String) (d : PyVal) :
    ((o.map RepaymentSec.toPy).getD (.dict [])).get k d
      = .ok ((o.bind fun x => olookup k x.entries).getD d) := by
  cases o with
  | none => rfl
  | some x => exact get_mkDict x.entries (by simp [RepaymentSec.entries]) k d

theorem get_toPy_LatestSec (o : Option LatestSec) (k : String) (d : PyVal) :
    ((o.map LatestSec.toPy).getD (.dict [])).get k d
      = .ok ((o.bind fun x => olookup k x.entries).getD d) := by
  cases o with
  | none => rfl
  | some x => exact get_mkDict x.entries (by simp [LatestSec.entries]) k d

theorem get_toPy_SchoolSec (o : Option SchoolSec) (k : String) (d : PyVal) :
    ((o.map SchoolSec.toPy).getD (.dict [])).get k d
      = .ok ((o.bind fun x => olookup k x.entries).getD d) := by
  cases o with
  | none => rfl
  | some x => exact get_mkDict x.entries (by simp [SchoolSec.entries]) k d

theorem get_toPy_SchoolRecord (r : SchoolRecord) (k : String) (d : PyVal) :
    r.toPy.get k d = .ok ((olookup k r.entries).getD d) :=
  get_mkDict r.entries (by simp [SchoolRecord.entries]) k d

/-- The `Website` entry (src/app.py line 45): the conditional expression
`f"https://{school.get('school_url')}" if school.get('school_url') else
"N/A"`, which looks the key up twice (condition first). -/
def websitePiece (school : PyVal) : Except String PyVal := do
  let cond ← school.get "school_url" .none
  if pyTruthy cond then
    let u ← school.get "school_url" .none
    pure (.str ("https://" ++ pyStr u))
  else
    pure (.str "N/A")

set_option maxRecDepth 8192

/-- `get_school_metrics` (src/app.py lines 36-123): one `←` per `.get` call,
in the source's evaluation order (Python evaluates the dict literal's values
top to bottom; repeated chains such as `latest.get('student', {})` really are
re-evaluated each time). -/
def get_school_metrics (school_data : PyVal) : Except String PyVal := do
  let latest ← school_data.get "latest" (.dict [])
  let school ← school_data.get "school" (.dict [])
  -- "Institution Overview"
  let name ← school.get "name" .none
  let city ← school.get "city" (.str "N/A")
  let state ← school.get "state" (.str "N/A")
  let address ← school.get "address" (.str "N/A")
  let website ← websitePiece school
  let own ← school.get "ownership" .none
  let carnegie ← school.get "carnegie_basic" .none
  let accr ← school.get "accreditor" .none
  let relig ← school.get "religious_affiliation" (.str "None")
  -- "Enrollment & Faculty" › "Student Body"
  let st ← latest.get "student" (.dict [])
  let en ← st.get "enrollment" (.dict [])
  let underg ← en.get "undergrad_12_month" (.str "N/A")
  let st ← latest.get "student" (.dict [])
  let en ← st.get "enrollment" (.dict [])
  let gradv ← en.get "grad_12_month" (.str "N/A")
  let st ← latest.get "student" (.dict [])
  let ptsv ← st.get "part_time_share" .none
  let pts ← format_percentage ptsv
  -- "Enrollment & Faculty" › "Faculty"
  let st ← latest.get "student" (.dict [])
  let de ← st.get "demographics" (.dict [])
  let sfr ← de.get "student_faculty_ratio" .none
  let ftfv ← school.get "ft_faculty_rate" .none
  let ftf ← format_percentage ftfv
  let fsv ← school.get "faculty_salary" .none
  let fsc ← format_currency fsv
  -- "Demographics" › "Gender"
  let st ← latest.get "student" (.dict [])
  let de ← st.get "demographics" (.dict [])
  let menv ← de.get "men" .none
  let menp ← format_percentage menv
  let st ← latest.get "student" (.dict [])
  let de ← st.get "demographics" (.dict [])
  let womenv ← de.get "women" .none
  let womenp ← format_percentage womenv
  -- "Demographics" › "Student Background"
  let st ← latest.get "student" (.dict [])
  let fgv ← st.get "share_firstgeneration" .none
  let fgp ← format_percentage fgv
  let st ← latest.get "student" (.dict [])
  let a25v ← st.get "share_25_older" .none
  let a25p ← format_percentage a25v
  let st ← latest.get "student" (.dict [])
  let de ← st.get "demographics" (.dict [])
  let agev ← de.get "age_entry" .none
  let st ← latest.get "student" (.dict [])
  let de ← st.get "demographics" (.dict [])
  let mfiv ← de.get "median_family_income" .none
  let mfic ← format_currency mfiv
  -- "Cost & Financial Aid" › "Direct Costs"
  let co ← latest.get "cost" (.dict [])
  let tu ← co.get "tuition" (.dict [])
  let insv ← tu.get "in_state" .none
  let insc ← format_currency insv
  let co ← latest.get "cost" (.dict [])
  let tu ← co.get "tuition" (.dict [])
  let outsv ← tu.get "out_of_state" .none
  let outsc ← format_currency outsv
  let co ← latest.get "cost" (.dict [])
  let rb ← co.get "roomboard" (.dict [])
  let onv ← rb.get "oncampus" .none
  let onc ← format_currency onv
  let co ← latest.get "cost" (.dict [])
  let bsv ← co.get "booksupply" .none
  let bsc ← format_currency bsv
  -- "Cost & Financial Aid" › "Net Price"
  let co ← latest.get "cost" (.dict [])
  let anp ← co.get "avg_net_price" (.dict [])
  let avgv ← anp.get "overall" .none
  let avgc ← format_currency avgv
  let co ← latest.get "cost" (.dict [])
  let npv ← co.get "net_price" (.dict [])
  let pu ← npv.get "public" (.dict [])
  let bil ← pu.get "by_income_level" (.dict [])
  let lowv ← bil.get "0-30000" .none
  let lowc ← format_currency lowv
  let co ← latest.get "cost" (.dict [])
  let npv ← co.get "net_price" (.dict [])
  let pu ← npv.get "public" (.dict [])
  let bil ← pu.get "by_income_level" (.dict [])
  let highv ← bil.get "75000-plus" .none
  let highc ← format_currency highv
  -- "Cost & Financial Aid" › "Aid & Debt"
  let st ← latest.get "student" (.dict [])
  let pellv ← st.get "students_with_pell_grant" .none
  let pellp ← format_percentage pellv
  let ad ← latest.get "aid" (.dict [])
  let flrv ← ad.get "federal_loan_rate" .none
  let flrp ← format_percentage flrv
  let ad ← latest.get "aid" (.dict [])
  let mdv ← ad.get "median_debt" (.dict [])
  let cpv ← mdv.get "completers" (.dict [])
  let mdov ← cpv.get "overall" .none
  let mdoc ← format_currency mdov
  -- "Student Success" › "Retention"
  let st ← latest.get "student" (.dict [])
  let rr ← st.get "retention_rate" (.dict [])
  let ro ← rr.get "overall" (.dict [])
  let rftv ← ro.get "full_time" .none
  let rftp ← format_percentage rftv
  let st ← latest.get "student" (.dict [])
  let rr ← st.get "retention_rate" (.dict [])
  let ro ← rr.get "overall" (.dict [])
  let rptv ← ro.get "part_time" .none
  let rptp ← format_percentage rptv
  -- "Student Success" › "Graduation"
  let cm ← latest.get "completion" (.dict [])
  let c4v ← cm.get "completion_rate_4yr_150nt" .none
  let c4p ← format_percentage c4v
  let cm ← latest.get "completion" (.dict [])
  let c6v ← cm.get "completion_rate_4yr_150nt" .none
  let c6p ← format_percentage c6v
  let cm ← latest.get "completion" (.dict [])
  let tr ← cm.get "transfer_rate" (.dict [])
  let t4 ← tr.get "4yr" (.dict [])
  let trv ← t4.get "full_time" .none
  let trp ← format_percentage trv
  -- "Career Outcomes" › "Median Earnings"
  let ea ← latest.get "earnings" (.dict [])
  let e6 ← ea.get "6_yrs_after_entry" (.dict [])
  let m6v ← e6.get "median" .none
  let m6c ← format_currency m6v
  let ea ← latest.get "earnings" (.dict [])
  let e8 ← ea.get "8_yrs_after_entry" (.dict [])
  let m8v ← e8.get "median_earnings" .none
  let m8c ← format_currency m8v
  let ea ← latest.get "earnings" (.dict [])
  let e10 ← ea.get "10_yrs_after_entry" (.dict [])
  let m10v ← e10.get "median" .none
  let m10c ← format_currency m10v
  -- "Career Outcomes" › "Employment"
  let ea ← latest.get "earnings" (.dict [])
  let e6 ← ea.get "6_yrs_after_entry" (.dict [])
  let p25v ← e6.get "percent_greater_than_25000" .none
  let p25p ← format_percentage p25v
  -- "Career Outcomes" › "Loan Repayment"
  let rp ← latest.get "repayment" (.dict [])
  let r1 ← rp.get "1_yr" (.dict [])
  let rs ← r1.get "rate_suppressed" (.dict [])
  let rp1v ← rs.get "overall" .none
  let rp1p ← format_percentage rp1v
  let rp ← latest.get "repayment" (.dict [])
  let r3 ← rp.get "3_yr" (.dict [])
  let rs ← r3.get "rate_suppressed" (.dict [])
  let rp3v ← rs.get "overall" .none
  let rp3p ← format_percentage rp3v
  pure (.dict [
    ("Institution Overview", .dict [
      ("Name", name),
      ("Location", .str (pyStr city ++ ", " ++ pyStr state)),
      ("Address", address),
      ("Website", website),
      ("Type", .str (if pyEqNum own 1 then "Public" else "Private")),
      ("Carnegie Classification", carnegie),
      ("Accreditor", accr),
      ("Religious Affiliation", relig)]),
    ("Enrollment & Faculty", .dict [
      ("Student Body", .dict [
        ("Undergraduate Enrollment", underg),
        ("Graduate Enrollment", gradv),
        ("Part-time Share", .str pts)]),
      ("Faculty", .dict [
        ("Student-Faculty Ratio", .str (pyStr sfr ++ ":1")),
        ("Full-time Faculty Rate", .str ftf),
        ("Faculty Salary", .str fsc)])]),
    ("Demographics", .dict [
      ("Gender", .dict [
        ("Men", .str menp),
        ("Women", .str womenp)]),
      ("Student Background", .dict [
        ("First Generation", .str fgp),
        ("Age 25 or Older", .str a25p),
        ("Average Age at Entry", agev),
        ("Median Family Income", .str mfic)])]),
    ("Cost & Financial Aid", .dict [
      ("Direct Costs", .dict [
        ("In-State Tuition", .str insc),
        ("Out-of-State Tuition", .str outsc),
        ("Room and Board", .str onc),
        ("Books and Supplies", .str bsc)]),
      ("Net Price", .dict [
        ("Average", .str avgc),
        ("Low Income (0-30k)", .str lowc),
        ("High Income (75k+)", .str highc)]),
      ("Aid & Debt", .dict [
        ("Pell Grant Recipients", .str pellp),
        ("Federal Loan Recipients", .str flrp),
        ("Median Debt", .str mdoc)])]),
    ("Student Success", .dict [
      ("Retention", .dict [
        ("First-year Full-time", .str rftp),
        ("First-year Part-time", .str rptp)]),
      ("Graduation", .dict [
        ("4-year rate", .str c4p),
        ("6-year rate", .str c6p),
        ("Transfer-out rate", .str trp)])]),
    ("Career Outcomes", .dict [
      ("Median Earnings", .dict [
        ("6 years after entry", .str m6c),
        ("8 years after entry", .str m8c),
        ("10 years after entry", .str m10c)]),
      ("Employment", .dict [
        ("Earning over $25k/year", .str p25p)]),
      ("Loan Repayment", .dict [
        ("1-year rate", .str rp1p),
        ("3-year rate", .str rp3p)])])])

/-!
## The report in closed form

`report` gives, for every record of the missing-keys class, the value
`get_school_metrics` produces on its encoding: every leaf is a total
function of the record's optional fields.  The master theorem
`get_school_metrics_toPy` proves the two agree.
-/

/-- What `format_percentage` yields on a value that is either absent
(`None`) or numeric. -/
def pctString : Option ℚ → String
  | Option.none => "N/A"
  | some q => formatFloat1 (mkRat (q.num * 100) q.den) ++ "%"

/-- What `format_currency` yields on a value that is either absent (`None`)
or numeric. -/
def curString : Option ℚ → String
  | Option.none => "N/A"
  | some q => if q = 0 then "N/A" else "$" ++ formatFloat2Comma q

/-- The `Website` leaf as a function of the optional `school_url` field. -/
def websiteOf : Option String → PyVal
  | some s => if s = "" then .str "N/A" else .str ("https://" ++ s)
  | Option.none => .str "N/A"

/-- The `Type` leaf as a function of the optional `ownership` field:
`"Public"` exactly on the value `1`, `"Private"` otherwise. -/
def ownershipType (c : Option ℚ) : PyVal :=
  .str (if pyEqNum ((c.map PyVal.num).getD PyVal.none) 1 then "Public" else "Private")

def pathStudent (r : SchoolRecord) : Option StudentSec :=
  r.latest.bind LatestSec.student

def pathDemo (r : SchoolRecord) : Option DemographicsSec :=
  (pathStudent r).bind StudentSec.demographics

def pathCost (r : SchoolRecord) : Option CostSec :=
  r.latest.bind LatestSec.cost

def pathCompletion (r : SchoolRecord) : Option CompletionSec :=
  r.latest.bind LatestSec.completion

def pathEarnings (r : SchoolRecord) : Option EarningsSec :=
  r.latest.bind LatestSec.earnings

def pathAid (r : SchoolRecord) : Option AidSec :=
  r.latest.bind LatestSec.aid

def pathRepay (r : SchoolRecord) : Option RepaymentSec :=
  r.latest.bind LatestSec.repayment

/-- The source path both graduation-rate leaves read. -/
def gradRateChain (r : SchoolRecord) : Option ℚ :=
  (pathCompletion r).bind CompletionSec.completion_rate_4yr_150nt

/-- The `latest.student.demographics.student_faculty_ratio` path. -/
def sfChain (r : SchoolRecord) : Option ℚ :=
  (pathDemo r).bind DemographicsSec.student_faculty

/-- The `school.ownership` path. -/
def ownChain (r : SchoolRecord) : Option ℚ :=
  r.school.bind SchoolSec.ownership

def reportOverview (r : SchoolRecord) : PyVal :=
  .dict [

      ("Name", ((r.school.bind SchoolSec.name).map PyVal.str).getD PyVal.none),
      ("Location", .str ((r.school.bind SchoolSec.city).getD "N/A" ++ ", " ++
        (r.school.bind SchoolSec.state).getD "N/A")),
      ("Address", ((r.school.bind SchoolSec.address).map PyVal.str).getD (.str "N/A")),
      ("Website", websiteOf (r.school.bind SchoolSec.school_url)),
      ("Type", ownershipType (ownChain r)),
      ("Carnegie Classification",
        ((r.school.bind SchoolSec.carnegie_basic).map PyVal.num).getD PyVal.none),
      ("Accreditor", ((r.school.bind SchoolSec.accreditor).map PyVal.str).getD PyVal.none),
      ("Religious Affiliation",
        ((r.school.bind SchoolSec.religious_affiliation).map PyVal.num).getD (.str "None"))]

def reportEnrollment (r : SchoolRecord) : PyVal :=
  .dict [

      ("Student Body", .dict [
        ("Undergraduate Enrollment",
          ((((pathStudent r).bind StudentSec.enrollment).bind
            EnrollmentSec.undergrad_12_month).map PyVal.num).getD (.str "N/A")),
        ("Graduate Enrollment",
          ((((pathStudent r).bind StudentSec.enrollment).bind
            EnrollmentSec.grad_12_month).map PyVal.num).getD (.str "N/A")),
        ("Part-time Share", .str (pctString ((pathStudent r).bind StudentSec.part_time_share)))]),
      ("Faculty", .dict [
        ("Student-Faculty Ratio",
          .str (pyStr (((sfChain r).map PyVal.num).getD PyVal.none) ++ ":1")),
        ("Full-time Faculty Rate", .str (pctString (r.school.bind SchoolSec.ft_faculty_rate))),
        ("Faculty Salary", .str (curString (r.school.bind SchoolSec.faculty_salary)))])]

def reportDemographics (r : SchoolRecord) : PyVal :=
  .dict [

      ("Gender", .dict [
        ("Men", .str (pctString ((pathDemo r).bind DemographicsSec.men))),
        ("Women", .str (pctString ((pathDemo r).bind DemographicsSec.women)))]),
      ("Student Background", .dict [
        ("First Generation",
          .str (pctString ((pathStudent r).bind StudentSec.share_firstgeneration))),
        ("Age 25 or Older", .str (pctString ((pathStudent r).bind StudentSec.share_25_older))),
        ("Average Age at Entry",
          (((pathDemo r).bind DemographicsSec.age_entry).map PyVal.num).getD PyVal.none),
        ("Median Family Income",
          .str (curString ((pathDemo r).bind DemographicsSec.median_family_income)))])]

def reportCost (r : SchoolRecord) : PyVal :=
  .dict [

      ("Direct Costs", .dict [
        ("In-State Tuition",
          .str (curString (((pathCost r).bind CostSec.tuition).bind TuitionSec.in_state))),
        ("Out-of-State Tuition",
          .str (curString (((pathCost r).bind CostSec.tuition).bind TuitionSec.out_of_state))),
        ("Room and Board",
          .str (curString (((pathCost r).bind CostSec.roomboard).bind RoomboardSec.oncampus))),
        ("Books and Supplies", .str (curString ((pathCost r).bind CostSec.booksupply)))]),
      ("Net Price", .dict [
        ("Average",
          .str (curString (((pathCost r).bind CostSec.avg_net_price).bind AvgNetPriceSec.overall))),
        ("Low Income (0-30k)",
          .str (curString (((((pathCost r).bind CostSec.net_price).bind NetPriceSec.pub).bind
            NetPricePubSec.by_income_level).bind ByIncomeSec.low_income))),
        ("High Income (75k+)",
          .str (curString (((((pathCost r).bind CostSec.net_price).bind NetPriceSec.pub).bind
            NetPricePubSec.by_income_level).bind ByIncomeSec.high_income)))]),
      ("Aid & Debt", .dict [
        ("Pell Grant Recipients",
          .str (pctString ((pathStudent r).bind StudentSec.students_with_pell_grant))),
        ("Federal Loan Recipients", .str (pctString ((pathAid r).bind AidSec.federal_loan_rate))),
        ("Median Debt",
          .str (curString ((((pathAid r).bind AidSec.median_debt).bind
            MedianDebtSec.completers).bind CompletersSec.overall)))])]

def reportSuccess (r : SchoolRecord) : PyVal :=
  .dict [

      ("Retention", .dict [
        ("First-year Full-time",
          .str (pctString ((((pathStudent r).bind StudentSec.retention_rate).bind
            RetentionSec.overall).bind RetOverallSec.full_time))),
        ("First-year Part-time",
          .str (pctString ((((pathStudent r).bind StudentSec.retention_rate).bind
            RetentionSec.overall).bind RetOverallSec.part_time)))]),
      ("Graduation", .dict [
        ("4-year rate", .str (pctString (gradRateChain r))),
        ("6-year rate", .str (pctString (gradRateChain r))),
        ("Transfer-out rate",
          .str (pctString ((((pathCompletion r).bind CompletionSec.transfer_rate).bind
            TransferRateSec.four_yr).bind TransferFourSec.full_time)))])]

def reportOutcomes (r : SchoolRecord) : PyVal :=
  .dict [

      ("Median Earnings", .dict [
        ("6 years after entry",
          .str (curString (((pathEarnings r).bind EarningsSec.six_yrs).bind
            EarningsYearSec.median))),
        ("8 years after entry",
          .str (curString (((pathEarnings r).bind EarningsSec.eight_yrs).bind
            EarningsYearSec.median_earnings))),
        ("10 years after entry",
          .str (curString (((pathEarnings r).bind EarningsSec.ten_yrs).bind
            EarningsYearSec.median)))]),
      ("Employment", .dict [
        ("Earning over $25k/year",
          .str (pctString (((pathEarnings r).bind EarningsSec.six_yrs).bind
            EarningsYearSec.percent_greater_than_25000)))]),
      ("Loan Repayment", .dict [
        ("1-year rate",
          .str (pctString ((((pathRepay r).bind RepaymentSec.one_yr).bind
            RepayYearSec.rate_suppressed).bind RateSupSec.overall))),
        ("3-year rate",
          .str (pctString ((((pathRepay r).bind RepaymentSec.three_yr).bind
            RepayYearSec.rate_suppressed).bind RateSupSec.overall)))])]

def report (r : SchoolRecord) : PyVal :=
  .dict [
    ("Institution Overview", reportOverview r),
    ("Enrollment & Faculty", reportEnrollment r),
    ("Demographics", reportDemographics r),
    ("Cost & Financial Aid", reportCost r),
    ("Student Success", reportSuccess r),
    ("Career Outcomes", reportOutcomes r)]

/-! Bridges between the monadic computation and the closed form. -/

theorem ok_bind {ε α β : Type} (a : α) (f : α → Except ε β) :
    (Except.ok a : Except ε α) >>= f = f a := rfl

theorem pure_ok {ε α : Type} (a : α) : (pure a : Except ε α) = Except.ok a := rfl

theorem bind_map_comp {α β γ : Type} (o : Option α) (g : α → Option β) (f : β → γ) :
    (o.bind fun x => (g x).map f) = (o.bind g).map f := by
  cases o <;> rfl

theorem format_percentage_chain (c : Option ℚ) :
    format_percentage ((c.map PyVal.num).getD PyVal.none) = .ok (pctString c) := by
  cases c <;> rfl

theorem format_currency_chain (c : Option ℚ) :
    format_currency ((c.map PyVal.num).getD PyVal.none) = .ok (curString c) := by
  cases c <;> rfl

theorem pyStr_str_chain (c : Option String) (d : String) :
    pyStr ((c.map PyVal.str).getD (PyVal.str d)) = c.getD d := by
  cases c <;> rfl

theorem websitePiece_toPy (o : Option SchoolSec) :
    websitePiece ((o.map SchoolSec.toPy).getD (.dict []))
      = .ok (websiteOf (o.bind SchoolSec.school_url)) := by
  cases o with
  | none => rfl
  | some s =>
    have hg : (SchoolSec.toPy s).get "school_url" PyVal.none
        = .ok ((s.school_url.map PyVal.str).getD PyVal.none) := by
      simpa [SchoolSec.entries, olookup] using get_toPy_SchoolSec (some s) "school_url" PyVal.none
    cases hu : s.school_url with
    | none =>
      simp [websitePiece, hg, hu, websiteOf, pyTruthy, ok_bind, pure_ok]
    | some u =>
      by_cases he : u = "" <;>
        simp [websitePiece, hg, hu, he, websiteOf, pyTruthy, pyStr, ok_bind, pure_ok]

/-- Master lemma: on every record of the missing-keys class, the aggregator
succeeds and produces exactly the closed-form `report`. -/
theorem get_school_metrics_toPy (r : SchoolRecord) :
    get_school_metrics r.toPy = .ok (report r) := by
  simp only [get_school_metrics, get_toPy_SchoolRecord, SchoolRecord.entries,
    get_toPy_LatestSec, LatestSec.entries, get_toPy_SchoolSec, SchoolSec.entries,
    get_toPy_StudentSec, StudentSec.entries, get_toPy_EnrollmentSec, EnrollmentSec.entries,
    get_toPy_DemographicsSec, DemographicsSec.entries, get_toPy_RetentionSec,
    RetentionSec.entries, get_toPy_RetOverallSec, RetOverallSec.entries,
    get_toPy_CostSec, CostSec.entries, get_toPy_TuitionSec, TuitionSec.entries,
    get_toPy_RoomboardSec, RoomboardSec.entries, get_toPy_AvgNetPriceSec,
    AvgNetPriceSec.entries, get_toPy_NetPriceSec, NetPriceSec.entries,
    get_toPy_NetPricePubSec, NetPricePubSec.entries, get_toPy_ByIncomeSec,
    ByIncomeSec.entries, get_toPy_CompletionSec, CompletionSec.entries,
    get_toPy_TransferRateSec, TransferRateSec.entries, get_toPy_TransferFourSec,
    TransferFourSec.entries, get_toPy_EarningsSec, EarningsSec.entries,
    get_toPy_EarningsYearSec, EarningsYearSec.entries, get_toPy_AidSec, AidSec.entries,
    get_toPy_MedianDebtSec, MedianDebtSec.entries, get_toPy_CompletersSec,
    CompletersSec.entries, get_toPy_RepaymentSec, RepaymentSec.entries,
    get_toPy_RepayYearSec, RepayYearSec.entries, get_toPy_RateSupSec, RateSupSec.entries,
    olookup, String.reduceEq, reduceIte, ok_bind, pure_ok, bind_map_comp,
    format_percentage_chain, format_currency_chain, pyStr_str_chain, websitePiece_toPy,
    report, reportOverview, reportEnrollment, reportDemographics, reportCost,
    reportSuccess, reportOutcomes, pathStudent, pathDemo, pathCost, pathCompletion,
    pathEarnings, pathAid, pathRepay, gradRateChain, sfChain, ownChain, ownershipType]

/-!
## Observations on a report, and the derived total-enrollment computation
-/

/-- Pure lookup of a key in a report node (for stating claims). -/
def jget : PyVal → String → Option PyVal
  | .dict es, k => lookupKey k es
  | _, _ => Option.none

/-- Follow a key path through nested report dicts. -/
def leafAt (m : PyVal) (path : List String) : Option PyVal :=
  path.foldl (fun acc k => acc.bind fun v => jget v k) (some m)

/-- The keys of a report node, in order. -/
def keysOf : PyVal → List String
  | .dict es => es.map Prod.fst
  | _ => []

/-- The values of a report node, in order. -/
def valuesOf : PyVal → List PyVal
  | .dict es => es.map Prod.snd
  | _ => []

def isNonemptyDict : PyVal → Bool
  | .dict (_ :: _) => true
  | _ => false

/-- The derived total-enrollment computation of `main` (src/app.py lines
172-174): `enroll = metrics["Enrollment & Faculty"]["Student Body"]`, then
`int(enroll['Undergraduate Enrollment']) + int(enroll['Graduate
Enrollment'])`, with Python's left-to-right evaluation. -/
def total_enrollment (metrics : PyVal) : Except String Int := do
  let sec ← pyIndex metrics "Enrollment & Faculty"
  let enroll ← pyIndex sec "Student Body"
  let u ← pyIndex enroll "Undergraduate Enrollment"
  let ui ← pyInt u
  let g ← pyIndex enroll "Graduate Enrollment"
  let gi ← pyInt g
  pure (ui + gi)

/-- The report the aggregator produces on the empty record `{}` — every
formatter-backed leaf is `"N/A"`, but the raw and interpolated leaves are
not. -/
def emptyReport : PyVal :=
  .dict [
    ("Institution Overview", .dict [
      ("Name", .none),
      ("Location", .str "N/A, N/A"),
      ("Address", .str "N/A"),
      ("Website", .str "N/A"),
      ("Type", .str "Private"),
      ("Carnegie Classification", .none),
      ("Accreditor", .none),
      ("Religious Affiliation", .str "None")]),
    ("Enrollment & Faculty", .dict [
      ("Student Body", .dict [
        ("Undergraduate Enrollment", .str "N/A"),
        ("Graduate Enrollment", .str "N/A"),
        ("Part-time Share", .str "N/A")]),
      ("Faculty", .dict [
        ("Student-Faculty Ratio", .str "None:1"),
        ("Full-time Faculty Rate", .str "N/A"),
        ("Faculty Salary", .str "N/A")])]),
    ("Demographics", .dict [
      ("Gender", .dict [
        ("Men", .str "N/A"),
        ("Women", .str "N/A")]),
      ("Student Background", .dict [
        ("First Generation", .str "N/A"),
        ("Age 25 or Older", .str "N/A"),
        ("Average Age at Entry", .none),
        ("Median Family Income", .str "N/A")])]),
    ("Cost & Financial Aid", .dict [
      ("Direct Costs", .dict [
        ("In-State Tuition", .str "N/A"),
        ("Out-of-State Tuition", .str "N/A"),
        ("Room and Board", .str "N/A"),
        ("Books and Supplies", .str "N/A")]),
      ("Net Price", .dict [
        ("Average", .str "N/A"),
        ("Low Income (0-30k)", .str "N/A"),
        ("High Income (75k+)", .str "N/A")]),
      ("Aid & Debt", .dict [
        ("Pell Grant Recipients", .str "N/A"),
        ("Federal Loan Recipients", .str "N/A"),
        ("Median Debt", .str "N/A")])]),
    ("Student Success", .dict [
      ("Retention", .dict [
        ("First-year Full-time", .str "N/A"),
        ("First-year Part-time", .str "N/A")]),
      ("Graduation", .dict [
        ("4-year rate", .str "N/A"),
        ("6-year rate", .str "N/A"),
        ("Transfer-out rate", .str "N/A")])]),
    ("Career Outcomes", .dict [
      ("Median Earnings", .dict [
        ("6 years after entry", .str "N/A"),
        ("8 years after entry", .str "N/A"),
        ("10 years after entry", .str "N/A")]),
      ("Employment", .dict [
        ("Earning over $25k/year", .str "N/A")]),
      ("Loan Repayment", .dict [
        ("1-year rate", .str "N/A"),
        ("3-year rate", .str "N/A")])])]

/-!
## Concrete records used by the claims
-/

/-- A record carrying only the two 12-month enrollment counts
(undergraduate 21000, graduate 14000). -/
def rec21k : SchoolRecord :=
  { latest := some
      { student := some
          { enrollment := some { undergrad_12_month := some 21000, grad_12_month := some 14000 },
            demographics := Option.none, part_time_share := Option.none,
            share_firstgeneration := Option.none, share_25_older := Option.none,
            students_with_pell_grant := Option.none, retention_rate := Option.none },
        cost := Option.none, completion := Option.none, earnings := Option.none,
        aid := Option.none, repayment := Option.none },
    school := Option.none }

/-- Like `rec21k` but with the undergraduate count missing. -/
def recNoUndergrad : SchoolRecord :=
  { latest := some
      { student := some
          { enrollment := some { undergrad_12_month := Option.none, grad_12_month := some 14000 },
            demographics := Option.none, part_time_share := Option.none,
            share_firstgeneration := Option.none, share_25_older := Option.none,
            students_with_pell_grant := Option.none, retention_rate := Option.none },
        cost := Option.none, completion := Option.none, earnings := Option.none,
        aid := Option.none, repayment := Option.none },
    school := Option.none }

/-- The record with both top-level subtrees absent. -/
def emptyRec : SchoolRecord :=
  { latest := Option.none, school := Option.none }

/-!
## The claims
-/

/-- C1: for every RawSchoolRecord of the missing-keys class (a nested
string-keyed mapping missing any subset of keys at any depth), every field
lookup performed by `get_school_metrics` is total — the whole aggregation
succeeds, so no `.get` chain raised, each path having resolved to the stored
value or to its defined absent default. -/
theorem c1_lookups_total (r : SchoolRecord) :
    ∃ m, get_school_metrics r.toPy = .ok m :=
  ⟨report r, get_school_metrics_toPy r⟩

/-- C2 (counterexample): aggregating the empty record `{}` raises no error,
but not every leaf is the sentinel `"N/A"` — the `Type` leaf of
`Institution Overview` is `"Private"`. -/
theorem c2_not_all_leaves_na :
    (∃ m, get_school_metrics (.dict []) = .ok m ∧
      leafAt m ["Institution Overview", "Type"] = some (.str "Private")) ∧
    "Private" ≠ "N/A" :=
  ⟨⟨emptyReport, rfl, rfl⟩, by decide⟩

/-- C2 (amended): aggregating the empty record `{}` raises no error and
produces exactly `emptyReport`: every formatter-backed leaf is `"N/A"`, while
the raw leaves `Name`, `Carnegie Classification`, `Accreditor` and
`Average Age at Entry` are `None`, `Location` is `"N/A, N/A"`, `Type` is
`"Private"`, `Religious Affiliation` is `"None"`, and the student-faculty
ratio is `"None:1"`. -/
theorem c2_empty_record_report :
    get_school_metrics (.dict []) = .ok emptyReport := rfl

/-- C3: `format_currency` returns `"N/A"` on `None` and on exactly `0`, and
otherwise renders a leading dollar sign followed by the thousands-grouped,
two-decimal rendering of the value; in particular `12345.6` becomes
`"$12,345.60"`. -/
theorem c3_format_currency :
    format_currency PyVal.none = .ok "N/A" ∧
    format_currency (.num 0) = .ok "N/A" ∧
    format_currency (.num (12345.6 : ℚ)) = .ok "$12,345.60" ∧
    ∀ q : ℚ, q ≠ 0 → format_currency (.num q) = .ok ("$" ++ formatFloat2Comma q) := by
  refine ⟨rfl, rfl, ?_, ?_⟩
  · have h : (12345.6 : ℚ) = mkRat 61728 5 := by norm_num
    rw [h]; rfl
  · intro q hq
    simp [format_currency, hq]

/-- Witness for C3's general clause at the concrete input `5`. -/
theorem c3_format_currency_witness :
    format_currency (.num 5) = .ok ("$" ++ formatFloat2Comma 5) ∧
    ("$" ++ formatFloat2Comma 5) = "$5.00" :=
  ⟨c3_format_currency.2.2.2 5 (by norm_num), rfl⟩

/-- C4: `format_percentage` returns `"N/A"` on `None`, and otherwise renders
the value times 100 to one decimal digit followed by `%`; in particular
`0.153` becomes `"15.3%"` and `1.0` becomes `"100.0%"`. -/
theorem c4_format_percentage :
    format_percentage PyVal.none = .ok "N/A" ∧
    format_percentage (.num (0.153 : ℚ)) = .ok "15.3%" ∧
    format_percentage (.num (1.0 : ℚ)) = .ok "100.0%" ∧
    ∀ q : ℚ, format_percentage (.num q)
      = .ok (formatFloat1 (mkRat (q.num * 100) q.den) ++ "%") := by
  refine ⟨rfl, ?_, ?_, fun q => rfl⟩
  · have h : (0.153 : ℚ) = mkRat 153 1000 := by norm_num
    rw [h]; rfl
  · have h : (1.0 : ℚ) = 1 := by norm_num
    rw [h]; rfl

/-- C5: the derived total-enrollment computation of `main` yields `35000`
on a report built from undergraduate `21000` and graduate `14000`, and on a
report whose undergraduate leaf is the absent marker `"N/A"` it raises the
numeric-coercion error instead of silently returning the graduate-only
count `14000`. -/
theorem c5_total_enrollment :
    (∃ m, get_school_metrics rec21k.toPy = .ok m ∧ total_enrollment m = .ok 35000) ∧
    (∃ m, get_school_metrics recNoUndergrad.toPy = .ok m ∧
      leafAt m ["Enrollment & Faculty", "Student Body", "Undergraduate Enrollment"]
        = some (.str "N/A") ∧
      total_enrollment m = .error "ValueError: invalid literal for int" ∧
      total_enrollment m ≠ .ok 14000) := by
  refine ⟨⟨report rec21k, get_school_metrics_toPy rec21k, rfl⟩,
    ⟨report recNoUndergrad, get_school_metrics_toPy recNoUndergrad, rfl, rfl, ?_⟩⟩
  intro h
  rw [show total_enrollment (report recNoUndergrad)
      = Except.error "ValueError: invalid literal for int" from rfl] at h
  exact Except.noConfusion h

/-- C6: on every record of the missing-keys class the `4-year rate` and
`6-year rate` graduation leaves are equal — both are read from
`latest.completion.completion_rate_4yr_150nt`. -/
theorem c6_grad_rates_equal (r : SchoolRecord) :
    ∃ m, get_school_metrics r.toPy = .ok m ∧
      leafAt m ["Student Success", "Graduation", "4-year rate"]
        = leafAt m ["Student Success", "Graduation", "6-year rate"] :=
  ⟨report r, get_school_metrics_toPy r, rfl⟩

/-- C7: whenever the `student_faculty_ratio` path is missing, the
student-faculty-ratio leaf renders as the string `"None:1"` (the unguarded
f-string interpolates Python's `None`), not as a sentinel. -/
theorem c7_missing_ratio_renders_none (r : SchoolRecord)
    (h : sfChain r = Option.none) :
    ∃ m, get_school_metrics r.toPy = .ok m ∧
      leafAt m ["Enrollment & Faculty", "Faculty", "Student-Faculty Ratio"]
        = some (.str "None:1") := by
  refine ⟨report r, get_school_metrics_toPy r, ?_⟩
  have hr : leafAt (report r) ["Enrollment & Faculty", "Faculty", "Student-Faculty Ratio"]
      = some (.str (pyStr (((sfChain r).map PyVal.num).getD PyVal.none) ++ ":1")) := rfl
  rw [hr, h]; rfl

/-- Witness for C7 at the concrete record with everything missing. -/
theorem c7_missing_ratio_witness :
    sfChain emptyRec = Option.none ∧
    ∃ m, get_school_metrics emptyRec.toPy = .ok m ∧
      leafAt m ["Enrollment & Faculty", "Faculty", "Student-Faculty Ratio"]
        = some (.str "None:1") :=
  ⟨rfl, c7_missing_ratio_renders_none emptyRec rfl⟩

/-- C8: `get_school_metrics` is deterministic — two runs on the same record
produce identical reports (and, being a pure function of its input in this
embedding, it cannot mutate the record). -/
theorem c8_deterministic (d : PyVal) (m₁ m₂ : PyVal)
    (h₁ : get_school_metrics d = .ok m₁) (h₂ : get_school_metrics d = .ok m₂) :
    m₁ = m₂ :=
  Except.ok.inj (h₁.symm.trans h₂)

/-- Witness for C8 at the empty record. -/
theorem c8_deterministic_witness : emptyReport = emptyReport :=
  c8_deterministic (.dict []) emptyReport emptyReport rfl rfl

/-- C9: on every record of the missing-keys class the report has exactly the
six fixed sections, in order, each a non-empty mapping. -/
theorem c9_sections (r : SchoolRecord) :
    ∃ m, get_school_metrics r.toPy = .ok m ∧
      keysOf m = ["Institution Overview", "Enrollment & Faculty", "Demographics",
        "Cost & Financial Aid", "Student Success", "Career Outcomes"] ∧
      (valuesOf m).all isNonemptyDict = true :=
  ⟨report r, get_school_metrics_toPy r, rfl, rfl⟩

/-- C10: the `Type` leaf is `"Public"` exactly when `school.ownership` is
`1` and `"Private"` in every other case, including when the field is
absent. -/
theorem c10_ownership_type (r : SchoolRecord) :
    ∃ m, get_school_metrics r.toPy = .ok m ∧
      leafAt m ["Institution Overview", "Type"]
        = some (.str (if ownChain r = some 1 then "Public" else "Private")) := by
  refine ⟨report r, get_school_metrics_toPy r, ?_⟩
  have hr : leafAt (report r) ["Institution Overview", "Type"]
      = some (ownershipType (ownChain r)) := rfl
  rw [hr]
  cases h : ownChain r with
  | none => rfl
  | some q =>
    by_cases hq : q = 1
    · simp [ownershipType, pyEqNum, hq]
    · simp [ownershipType, pyEqNum, hq]
